import Mathlib

/-!
# Verification of the agenta configuration-revisioning and deployment engine

This file gives a shallow embedding, in Lean 4, of the configuration
revisioning / environment deployment core of the agenta backend
(`agenta_backend/services/db_manager.py`,
`agenta_backend/routers/configs_router.py`) and of the evaluator dispatcher
(`agenta_backend/services/evaluators_service.py`), together with theorems
settling the behavioural claims about save-config, deploy, revert,
get-config and evaluator dispatch.

Modelling conventions:
* The document store is a `DBState` record of lists, one per collection
  (Variant, VariantRevision, Environment, EnvironmentRevision, Base,
  Deployment).  `find_one` becomes `List.find?`, `create` becomes list
  append, and `save` of a fetched-and-mutated document replaces the record
  with the matching id.
* Document ids (Mongo ObjectIds) are modelled as `Nat`; `DBState.next_id`
  supplies fresh ids for created documents.
* JSON parameter mappings are modelled as association lists
  `List (String × String)`; the code only ever compares them for equality
  and against the empty mapping `{}` (modelled as `[]`).
* `ConfigDB` documents are never persisted on their own in the source
  (`ConfigDB(...)` is constructed and embedded, never `.create()`d), so a
  `Config` value is embedded by copy into variants and variant revisions.
* Python `HTTPException(status, detail)` and uncaught exceptions mapped to
  500 by the routers' generic handlers are modelled by the `HTTPError`
  type.  Detail strings are abbreviated (the source interpolates ids and
  names into them); status codes are exact.
* The authorization collaborator `check_user_org_access` is outside the
  core (spec §1) and is modelled as granting access.
-/

/-- JSON-like parameter mapping (the code only tests equality and emptiness). -/
abbrev Params := List (String × String)

/-- `ConfigDB`: an embedded named parameter set
(`config_name`, `parameters`). -/
structure Config where
  config_name : String
  parameters : Params
deriving DecidableEq, Repr

/-- `VariantBaseDB`: the deployable base a variant is rooted at. -/
structure VariantBaseDB where
  id : Nat
  app : Nat
  base_name : String
deriving DecidableEq, Repr

/-- `AppVariantDB`: a named configuration lineage.  `revision` is the
current revision number; `config` is the denormalized live config. -/
structure AppVariantDB where
  id : Nat
  app : Nat
  base : Nat
  variant_name : String
  base_name : String
  config_name : String
  revision : Nat
  config : Config
  modified_by : Nat
deriving DecidableEq, Repr

/-- `AppVariantRevisionsDB`: an immutable snapshot of a variant's config at
one revision number. -/
structure AppVariantRevisionsDB where
  id : Nat
  variant : Nat
  revision : Nat
  config : Config
  base : Nat
  modified_by : Nat
deriving DecidableEq, Repr

/-- `AppEnvironmentDB`: a named deployment target.  `revision` is the
environment's revision counter; `deployed_app_variant_revision` is the live
pointer (id of an `AppVariantRevisionsDB`). -/
structure AppEnvironmentDB where
  id : Nat
  app : Nat
  name : String
  revision : Nat
  deployed_app_variant : Option Nat
  deployed_app_variant_revision : Option Nat
  deployment : Option Nat
deriving DecidableEq, Repr

/-- `AppEnvironmentRevisionDB`: an immutable audit record of a deploy. -/
structure AppEnvironmentRevisionDB where
  id : Nat
  environment : Nat
  revision : Nat
  modified_by : Nat
  deployed_app_variant_revision : Option Nat
  deployment : Option Nat
deriving DecidableEq, Repr

/-- `DeploymentDB`: external infrastructure record for an app. -/
structure DeploymentDB where
  id : Nat
  app : Nat
deriving DecidableEq, Repr

/-- The document store: one list per collection, plus a fresh-id counter. -/
structure DBState where
  variants : List AppVariantDB
  variant_revisions : List AppVariantRevisionsDB
  environments : List AppEnvironmentDB
  environment_revisions : List AppEnvironmentRevisionDB
  bases : List VariantBaseDB
  deployments : List DeploymentDB
  next_id : Nat
deriving Repr

/-- An HTTP-level failure: `HTTPException(status, detail)` raised by the
code, or an uncaught Python exception mapped to status 500 by the routers'
generic handlers.  Detail strings are abbreviated. -/
inductive HTTPError where
  | http (status : Nat) (detail : String)
deriving DecidableEq, Repr

/-- `AppVariantDB.find_one(id == variant_id)`. -/
def findVariant (s : DBState) (variant_id : Nat) : Option AppVariantDB :=
  s.variants.find? (fun v => v.id == variant_id)

/-- Replace the variant document with matching id (`variant.save()`). -/
def saveVariant (s : DBState) (v : AppVariantDB) : DBState :=
  { s with variants := s.variants.map (fun w => if w.id == v.id then v else w) }

/-- Insertion step for the `.sort("variant_name")` of
`list_variants_for_base`. -/
def insertByName (v : AppVariantDB) : List AppVariantDB → List AppVariantDB
  | [] => [v]
  | w :: ws =>
    if v.variant_name ≤ w.variant_name then v :: w :: ws
    else w :: insertByName v ws

/-- Sort variants by `variant_name` (the `.sort("variant_name")` in
`list_variants_for_base`). -/
def sortByName (l : List AppVariantDB) : List AppVariantDB :=
  l.foldr insertByName []

/-- `db_manager.list_variants_for_base`: all variants whose `base` link is
the given base, sorted by `variant_name`. -/
def list_variants_for_base (s : DBState) (base_id : Nat) : List AppVariantDB :=
  sortByName (s.variants.filter (fun v => v.base == base_id))

/-- `db_manager.update_variant_parameters`: set the variant's embedded
config parameters to `parameters`, bump `revision` by 1, set `modified_by`,
save the variant, then append a new `AppVariantRevisionsDB` at the new
revision number carrying the updated config. -/
def update_variant_parameters (s : DBState) (app_variant_db : AppVariantDB)
    (parameters : Params) (uid : Nat) : DBState :=
  let config_db : Config :=
    { config_name := app_variant_db.config.config_name, parameters := parameters }
  let v' : AppVariantDB :=
    { app_variant_db with
        config := config_db,
        revision := app_variant_db.revision + 1,
        modified_by := uid }
  let s1 := saveVariant s v'
  let variant_revision : AppVariantRevisionsDB :=
    { id := s1.next_id, variant := v'.id, revision := v'.revision,
      config := config_db, base := v'.base, modified_by := uid }
  { s1 with
      variant_revisions := s1.variant_revisions ++ [variant_revision],
      next_id := s1.next_id + 1 }

/-- `db_manager.add_variant_from_base_and_config`: create a new variant
named `base_name ++ "." ++ new_config_name` at revision 1, with one initial
`AppVariantRevisionsDB` at revision 1 carrying the supplied parameters.
Fails (HTTP 500 from the router) when the base has no previous variant, or
(`ValueError`, mapped to 500 by the router's generic handler) when a
variant with the same config name already exists. -/
def add_variant_from_base_and_config (s : DBState) (base_db : VariantBaseDB)
    (new_config_name : String) (parameters : Params) (uid : Nat) :
    Except HTTPError Unit × DBState :=
  let new_variant_name := base_db.base_name ++ "." ++ new_config_name
  match (s.variants.filter (fun v => v.base == base_db.id)).head? with
  | none => (.error (.http 500 "Previous app variant not found"), s)
  | some previous_app_variant_db =>
    let app_variant_for_base := list_variants_for_base s base_db.id
    if app_variant_for_base.any (fun av => av.config_name == new_config_name) then
      (.error (.http 500 "App variant with the same name already exists"), s)
    else
      let config_db : Config :=
        { config_name := new_config_name, parameters := parameters }
      let db_app_variant : AppVariantDB :=
        { id := s.next_id,
          app := previous_app_variant_db.app,
          base := base_db.id,
          variant_name := new_variant_name,
          base_name := base_db.base_name,
          config_name := new_config_name,
          revision := 1,
          config := config_db,
          modified_by := uid }
      let s1 : DBState :=
        { s with variants := s.variants ++ [db_app_variant],
                 next_id := s.next_id + 1 }
      let variant_revision : AppVariantRevisionsDB :=
        { id := s1.next_id, variant := db_app_variant.id, revision := 1,
          config := config_db, base := base_db.id, modified_by := uid }
      (.ok (),
       { s1 with
           variant_revisions := s1.variant_revisions ++ [variant_revision],
           next_id := s1.next_id + 1 })

/-- `configs_router.save_config`: find the variant for the base with the
requested config name; if present, update it in place when `overwrite` is
true or its current parameters are the empty mapping, otherwise fail with
the conflict `HTTPException` (status 200, as in the source); if absent,
create a derived variant via `add_variant_from_base_and_config`.
`app_manager.update_variant_parameters` (not part of the revisioning core)
resolves the variant id back to the same document and delegates to
`db_manager.update_variant_parameters`; it is modelled as that delegation. -/
def save_config (s : DBState) (base_id : Nat) (config_name : String)
    (parameters : Params) (overwrite : Bool) (uid : Nat) :
    Except HTTPError Unit × DBState :=
  match s.bases.find? (fun b => b.id == base_id) with
  | none => (.error (.http 404 "Base not found"), s)
  | some base_db =>
    match (list_variants_for_base s base_id).find?
        (fun v => v.config_name == config_name) with
    | some variant_to_overwrite =>
      if overwrite || variant_to_overwrite.config.parameters == ([] : Params) then
        (.ok (), update_variant_parameters s variant_to_overwrite parameters uid)
      else
        (.error (.http 200 "Config name already exists. Please use a different name or set overwrite to True."), s)
    | none =>
      add_variant_from_base_and_config s base_db config_name parameters uid

/-- Python truthiness of an optional string (`if environment_name:`):
`None` and the empty string are falsy. -/
def pyTruthy : Option String → Bool
  | none => false
  | some st => st ≠ ""

/-- The `environment_name` branch of `configs_router.get_config`: scan the
app's environments for the first with the requested name and take its
deployed revision.  When no environment matches, the Python loop leaves
`found_variant_revision` unassigned and the subsequent read raises
`UnboundLocalError`, which the router's generic handler maps to HTTP 500
(the 400 branch is reached only when a matching environment exists but has
nothing deployed). -/
def getConfigByEnv (s : DBState) (base_id : Nat) (base_db : VariantBaseDB)
    (environment_name : String) : Except HTTPError Config :=
  let app_environments := s.environments.filter (fun e => e.app == base_db.app)
  match app_environments.find? (fun e => e.name == environment_name) with
  | none =>
    .error (.http 500 "UnboundLocalError: found_variant_revision referenced before assignment")
  | some app_environment =>
    match app_environment.deployed_app_variant_revision with
    | none => .error (.http 400 "Environment name not found for base")
    | some rev_id =>
      match s.variant_revisions.find? (fun r => r.id == rev_id) with
      | none => .error (.http 500 "broken deployed_app_variant_revision link")
      | some found_variant_revision =>
        if found_variant_revision.base != base_id then
          .error (.http 400 "Environment does not deploy base")
        else
          .ok found_variant_revision.config

/-- The `config_name` branch of `configs_router.get_config`: return the
named variant's current (live) config. -/
def getConfigByName (s : DBState) (base_id : Nat) (config_name : String) :
    Except HTTPError Config :=
  match (list_variants_for_base s base_id).find?
      (fun v => v.config_name == config_name) with
  | none => .error (.http 400 "Config name not found for base")
  | some found_variant => .ok found_variant.config

/-- `configs_router.get_config`: fetch the base (404 when absent), then
branch on the truthiness of `environment_name`, else of `config_name`;
when both are falsy the Python code reads the never-assigned local
`config`, raising `UnboundLocalError`, mapped to HTTP 500. -/
def get_config (s : DBState) (base_id : Nat)
    (config_name environment_name : Option String) : Except HTTPError Config :=
  match s.bases.find? (fun b => b.id == base_id) with
  | none => .error (.http 404 "Base not found")
  | some base_db =>
    if pyTruthy environment_name then
      getConfigByEnv s base_id base_db (environment_name.getD "")
    else if pyTruthy config_name then
      getConfigByName s base_id (config_name.getD "")
    else
      .error (.http 500 "UnboundLocalError: config referenced before assignment")

/-- `db_manager.deploy_to_environment`: load the variant and its current
revision record, find the environment by app and name, look up the app's
deployment record, then bump the environment's revision counter, point it
at the variant's current revision, append one `AppEnvironmentRevisionDB`
at the new counter value, and save the environment. -/
def deploy_to_environment (s : DBState) (environment_name : String)
    (variant_id : Nat) (uid : Nat) : Except HTTPError Unit × DBState :=
  match findVariant s variant_id with
  | none =>
    -- `app_variant_db.revision` on `None` raises before the explicit check
    (.error (.http 500 "AttributeError: NoneType has no attribute revision"), s)
  | some app_variant_db =>
    match s.variant_revisions.find?
        (fun r => r.variant == variant_id && r.revision == app_variant_db.revision) with
    | none => (.error (.http 500 "app variant revision not found"), s)
    | some app_variant_revision_db =>
      match s.environments.find?
          (fun e => e.app == app_variant_db.app && e.name == environment_name) with
      | none => (.error (.http 500 "Environment not found"), s)
      | some environment_db =>
        match s.deployments.find? (fun d => d.app == app_variant_db.app) with
        | none =>
          (.error (.http 500 "AttributeError: NoneType has no attribute id"), s)
        | some deployment =>
          let env' : AppEnvironmentDB :=
            { environment_db with
                revision := environment_db.revision + 1,
                deployed_app_variant := some app_variant_db.id,
                deployed_app_variant_revision := some app_variant_revision_db.id,
                deployment := some deployment.id }
          let environment_revision : AppEnvironmentRevisionDB :=
            { id := s.next_id,
              environment := environment_db.id,
              revision := env'.revision,
              modified_by := uid,
              deployed_app_variant_revision := some app_variant_revision_db.id,
              deployment := some deployment.id }
          (.ok (),
           { s with
               environments :=
                 s.environments.map (fun e => if e.id == environment_db.id then env' else e),
               environment_revisions :=
                 s.environment_revisions ++ [environment_revision],
               next_id := s.next_id + 1 })

/-- `db_manager.update_app_environment_deployed_variant_revision`: look the
variant revision up by id (uncaught `Exception`, hence 500, when absent),
set the environment's live pointer to it and save the environment. -/
def update_app_environment_deployed_variant_revision (s : DBState)
    (app_environment : AppEnvironmentDB) (deployed_variant_revision : Nat) :
    Except HTTPError Unit × DBState :=
  match s.variant_revisions.find? (fun r => r.id == deployed_variant_revision) with
  | none => (.error (.http 500 "App variant revision not found"), s)
  | some app_variant_revision =>
    let env' : AppEnvironmentDB :=
      { app_environment with
          deployed_app_variant_revision := some app_variant_revision.id }
    (.ok (),
     { s with
         environments :=
           s.environments.map (fun e => if e.id == app_environment.id then env' else e) })

/-- `configs_router.revert_deployment_revision`: fetch the environment
revision (404 when absent, 404 when it has no deployed variant revision),
then reset the owning environment's live pointer to that historical value.
No counter increment and no new `AppEnvironmentRevisionDB` is performed. -/
def revert_deployment_revision (s : DBState) (deployment_revision_id : Nat) :
    Except HTTPError Unit × DBState :=
  match s.environment_revisions.find? (fun er => er.id == deployment_revision_id) with
  | none => (.error (.http 404 "No environment revision found"), s)
  | some environment_revision =>
    match environment_revision.deployed_app_variant_revision with
    | none => (.error (.http 404 "No deployed app variant found for deployment revision"), s)
    | some deployed_rev_id =>
      match s.environments.find? (fun e => e.id == environment_revision.environment) with
      | none => (.error (.http 500 "broken environment link"), s)
      | some app_environment =>
        update_app_environment_deployed_variant_revision s app_environment deployed_rev_id

/-! ## Evaluator dispatch (`evaluators_service.py`) -/

/-- The seven scoring functions defined in `evaluators_service.py`. -/
def evaluatorFunctionNames : List String :=
  ["auto_exact_match", "auto_similarity_match", "auto_regex_test",
   "field_match_test", "auto_webhook_test", "auto_custom_code_run",
   "auto_ai_critique"]

/-- Every name bound in the module namespace of `evaluators_service.py` —
what `globals()` contains there: the interpreter-provided module
attributes (`__name__`, `__doc__`, `__package__`, `__loader__`,
`__spec__`, `__file__`, `__cached__`, `__builtins__`), the imports (`re`,
`json`, `httpx`, `Any`, `Dict`, `Tuple`, `sandbox`, `Error`, `Result`,
`OpenAI`, `LLMChain`, `PromptTemplate`, `logging`), the module logger, the
seven scoring functions, and `evaluate` itself. -/
def moduleGlobalNames : List String :=
  ["__name__", "__doc__", "__package__", "__loader__", "__spec__",
   "__file__", "__cached__", "__builtins__",
   "re", "json", "httpx", "Any", "Dict", "Tuple", "sandbox", "Error",
   "Result", "OpenAI", "LLMChain", "PromptTemplate", "logging", "logger"]
  ++ evaluatorFunctionNames ++ ["evaluate"]

/-- Module globals whose bound value is falsy in Python: the module has no
docstring, so `__doc__` is `None`.  All the other bindings (non-empty
strings, modules, classes, functions, loader and spec objects, the
builtins mapping) are truthy. -/
def falsyModuleGlobalNames : List String := ["__doc__"]

/-- Outcome of the `evaluate` dispatcher. -/
inductive EvaluateOutcome where
  /-- The named scoring function was called. -/
  | dispatched (fname : String)
  /-- `ValueError("Evaluation method ... not found.")`. -/
  | valueError (key : String)
  /-- A non-scorer module global was resolved and called; the call raises
  (wrong arity / not callable) and is re-raised as `RuntimeError`. -/
  | runtimeError (key : String)
deriving DecidableEq, Repr

/-- `evaluators_service.evaluate`: resolve `evaluator_key` through
`globals().get(evaluator_key, None)`.  The guard
`if not evaluation_function:` raises the not-found `ValueError` when the
name is unbound (`.get` returned `None`) or bound to a falsy value
(`__doc__` is `None`); otherwise the resolved object is called (a scoring
function dispatches, any other truthy module global fails inside the
`try` and is re-raised as `RuntimeError`). -/
def evaluate (evaluator_key : String) : EvaluateOutcome :=
  if evaluator_key ∈ moduleGlobalNames ∧ evaluator_key ∉ falsyModuleGlobalNames then
    if evaluator_key ∈ evaluatorFunctionNames then
      .dispatched evaluator_key
    else
      .runtimeError evaluator_key
  else
    .valueError evaluator_key

/-- Does the dispatcher outcome correspond to the not-found error path? -/
def EvaluateOutcome.isNotFound : EvaluateOutcome → Bool
  | .valueError _ => true
  | _ => false

/-! ## Helper lemmas about list lookups -/

theorem find?_filter_eq {α : Type} (p q : α → Bool) :
    ∀ l : List α, (l.filter p).find? q = l.find? (fun x => p x && q x) := by
  intro l
  induction l with
  | nil => rfl
  | cons a t ih =>
    by_cases hp : p a = true
    · by_cases hq : q a = true
      · simp [List.filter_cons, hp, List.find?, hq]
      · simp only [Bool.not_eq_true] at hq
        simp [List.filter_cons, hp, List.find?, hq, ih]
    · simp only [Bool.not_eq_true] at hp
      simp [List.filter_cons, hp, List.find?, hp, ih]

theorem find?_map_pointwise {α : Type} (g : α → α) (p : α → Bool) :
    ∀ l : List α, (∀ x ∈ l, p (g x) = p x) →
      (l.map g).find? p = (l.find? p).map g := by
  intro l
  induction l with
  | nil => intro _; rfl
  | cons a t ih =>
    intro h
    have ha : p (g a) = p a := h a (List.mem_cons_self a t)
    by_cases hp : p a = true
    · simp [List.map_cons, List.find?, ha, hp]
    · simp only [Bool.not_eq_true] at hp
      simp only [List.map_cons, List.find?, ha, hp]
      exact ih (fun x hx => h x (List.mem_cons_of_mem a hx))

theorem find?_beq_id_of_nodup {α : Type} (idf : α → Nat) :
    ∀ (l : List α), (l.map idf).Nodup → ∀ x ∈ l,
      l.find? (fun y => idf y == idf x) = some x := by
  intro l
  induction l with
  | nil => intro _ x hx; cases hx
  | cons a t ih =>
    intro hnd x hx
    have hnd' : (idf a) ∉ t.map idf ∧ (t.map idf).Nodup := by
      rw [List.map_cons] at hnd
      exact List.nodup_cons.mp hnd
    rcases List.mem_cons.mp hx with rfl | hxt
    · simp [List.find?]
    · have hne : idf a ≠ idf x := by
        intro hEq
        exact hnd'.1 (hEq ▸ List.mem_map_of_mem idf hxt)
      have hb : (idf a == idf x) = false := by
        simp [hne]
      simp only [List.find?, hb]
      exact ih hnd'.2 x hxt

theorem find?_append_left {α : Type} (p : α → Bool) :
    ∀ (l1 l2 : List α) (x : α), l1.find? p = some x →
      (l1 ++ l2).find? p = some x := by
  intro l1
  induction l1 with
  | nil => intro l2 x h; cases h
  | cons a t ih =>
    intro l2 x h
    by_cases hp : p a = true
    · simp only [List.find?, hp] at h
      simp [List.cons_append, List.find?, hp, h]
    · simp only [Bool.not_eq_true] at hp
      simp only [List.find?, hp] at h
      simp only [List.cons_append, List.find?, hp]
      exact ih l2 x h

theorem eq_of_idf_eq_of_nodup {α : Type} (idf : α → Nat) :
    ∀ (l : List α), (l.map idf).Nodup → ∀ x ∈ l, ∀ y ∈ l,
      idf x = idf y → x = y := by
  intro l
  induction l with
  | nil => intro _ x hx; cases hx
  | cons a t ih =>
    intro hnd x hx y hy hxy
    have hnd' : (idf a) ∉ t.map idf ∧ (t.map idf).Nodup := by
      rw [List.map_cons] at hnd
      exact List.nodup_cons.mp hnd
    rcases List.mem_cons.mp hx with rfl | hxt
    · rcases List.mem_cons.mp hy with rfl | hyt
      · rfl
      · exact absurd (hxy ▸ List.mem_map_of_mem idf hyt) hnd'.1
    · rcases List.mem_cons.mp hy with rfl | hyt
      · exact absurd (hxy ▸ List.mem_map_of_mem idf hxt) hnd'.1
      · exact ih hnd'.2 x hxt y hyt hxy

theorem any_eq_false_of_find?_eq_none {α : Type} (p : α → Bool) (l : List α)
    (h : l.find? p = none) : l.any p = false := by
  cases hA : l.any p with
  | false => rfl
  | true =>
    obtain ⟨x, hx, hpx⟩ := List.any_eq_true.mp hA
    have := List.find?_eq_none.mp h x hx
    exact absurd hpx this

/-! ## Concrete states for witnesses and counterexamples -/

/-- A concrete config (`{"temperature": "0.5"}` under name `prod`). -/
def cfgProd : Config :=
  { config_name := "prod", parameters := [("temperature", "0.5")] }

/-- A concrete base. -/
def exBase : VariantBaseDB := { id := 1, app := 0, base_name := "app" }

/-- A concrete variant under `exBase`, at revision 1. -/
def exVariant : AppVariantDB :=
  { id := 2, app := 0, base := 1, variant_name := "app.prod",
    base_name := "app", config_name := "prod", revision := 1,
    config := cfgProd, modified_by := 7 }

/-- The revision-1 snapshot of `exVariant`. -/
def exRevision : AppVariantRevisionsDB :=
  { id := 3, variant := 2, revision := 1, config := cfgProd,
    base := 1, modified_by := 7 }

/-- A concrete environment, never deployed. -/
def exEnvironment : AppEnvironmentDB :=
  { id := 4, app := 0, name := "production", revision := 0,
    deployed_app_variant := none, deployed_app_variant_revision := none,
    deployment := none }

/-- The infrastructure record for the app. -/
def exDeployment : DeploymentDB := { id := 5, app := 0 }

/-- A concrete store: one base, one variant at revision 1 with its
snapshot, one undeployed environment, one deployment record. -/
def exState : DBState :=
  { variants := [exVariant], variant_revisions := [exRevision],
    environments := [exEnvironment], environment_revisions := [],
    bases := [exBase], deployments := [exDeployment], next_id := 6 }

/-- A store holding a base with no variants at all. -/
def exStateNoVariants : DBState :=
  { variants := [], variant_revisions := [], environments := [],
    environment_revisions := [], bases := [exBase], deployments := [],
    next_id := 2 }

/-! ## C4: save_config with overwrite=true on an existing variant -/

/-- C4: for every existing variant matching the requested config name,
`save_config` with `overwrite=true` increments that variant's current
revision number by exactly 1, sets its current config parameters to the
supplied parameters, sets `modified_by`, and appends exactly one new
variant revision at the new revision number. -/
theorem save_config_overwrite_updates_in_place
    (s : DBState) (base_id : Nat) (config_name : String)
    (parameters : Params) (uid : Nat)
    (base_db : VariantBaseDB) (v : AppVariantDB)
    (hb : s.bases.find? (fun b => b.id == base_id) = some base_db)
    (hv : (list_variants_for_base s base_id).find?
        (fun w => w.config_name == config_name) = some v) :
    save_config s base_id config_name parameters true uid =
      (.ok (),
       { s with
           variants := s.variants.map (fun w =>
             if w.id == v.id then
               { v with
                   config := { config_name := v.config.config_name,
                               parameters := parameters },
                   revision := v.revision + 1,
                   modified_by := uid }
             else w),
           variant_revisions := s.variant_revisions ++
             [{ id := s.next_id, variant := v.id, revision := v.revision + 1,
                config := { config_name := v.config.config_name,
                            parameters := parameters },
                base := v.base, modified_by := uid }],
           next_id := s.next_id + 1 }) := by
  simp [save_config, hb, hv, update_variant_parameters, saveVariant]

/-- Witness for C4 at a concrete input: saving `{"temperature": "0.9"}`
over `exVariant` (revision 1) gives revision 2, updated parameters, the
new actor as `modified_by`, and one appended revision record at number 2. -/
theorem save_config_overwrite_updates_in_place_witness :
    save_config exState 1 "prod" [("temperature", "0.9")] true 8 =
      (.ok (),
       { exState with
           variants := exState.variants.map (fun w =>
             if w.id == exVariant.id then
               { exVariant with
                   config := { config_name := exVariant.config.config_name,
                               parameters := [("temperature", "0.9")] },
                   revision := exVariant.revision + 1,
                   modified_by := 8 }
             else w),
           variant_revisions := exState.variant_revisions ++
             [{ id := exState.next_id, variant := exVariant.id,
                revision := exVariant.revision + 1,
                config := { config_name := exVariant.config.config_name,
                            parameters := [("temperature", "0.9")] },
                base := exVariant.base, modified_by := 8 }],
           next_id := exState.next_id + 1 }) :=
  save_config_overwrite_updates_in_place exState 1 "prod"
    [("temperature", "0.9")] 8 exBase exVariant (by decide) (by decide)

/-! ## C5: save_config with overwrite=false on an existing non-empty config -/

/-- C5: for every existing variant matching the requested config name whose
current parameters are non-empty, `save_config` with `overwrite=false`
fails with the config-name-conflict error (an `HTTPException` carrying
status 200, as in the source) and leaves the store unchanged: no new
variant revision, no new variant, no change to the variant's revision
number or parameters. -/
theorem save_config_no_overwrite_conflict
    (s : DBState) (base_id : Nat) (config_name : String)
    (parameters : Params) (uid : Nat)
    (base_db : VariantBaseDB) (v : AppVariantDB)
    (hb : s.bases.find? (fun b => b.id == base_id) = some base_db)
    (hv : (list_variants_for_base s base_id).find?
        (fun w => w.config_name == config_name) = some v)
    (hnonempty : v.config.parameters ≠ []) :
    save_config s base_id config_name parameters false uid =
      (.error (.http 200 "Config name already exists. Please use a different name or set overwrite to True."), s) := by
  have hbeq : (v.config.parameters == ([] : Params)) = false :=
    beq_eq_false_iff_ne.mpr hnonempty
  simp [save_config, hb, hv, hbeq]

/-- Witness for C5 at a concrete input: `exVariant` has non-empty
parameters, so the overwrite=false save is rejected with the conflict
error and `exState` is unchanged. -/
theorem save_config_no_overwrite_conflict_witness :
    save_config exState 1 "prod" [("temperature", "0.9")] false 8 =
      (.error (.http 200 "Config name already exists. Please use a different name or set overwrite to True."), exState) :=
  save_config_no_overwrite_conflict exState 1 "prod"
    [("temperature", "0.9")] 8 exBase exVariant (by decide) (by decide)
    (by decide)

/-! ## C6: save_config on an existing variant with empty parameters -/

/-- C6: for every existing variant matching the requested config name whose
current parameters are the empty mapping, `save_config` performs the
in-place update even with `overwrite=false`: revision bumped by 1, new
variant revision appended, current config set to the supplied parameters —
no conflict error. -/
theorem save_config_empty_params_updates_in_place
    (s : DBState) (base_id : Nat) (config_name : String)
    (parameters : Params) (uid : Nat)
    (base_db : VariantBaseDB) (v : AppVariantDB)
    (hb : s.bases.find? (fun b => b.id == base_id) = some base_db)
    (hv : (list_variants_for_base s base_id).find?
        (fun w => w.config_name == config_name) = some v)
    (hempty : v.config.parameters = []) :
    save_config s base_id config_name parameters false uid =
      (.ok (),
       { s with
           variants := s.variants.map (fun w =>
             if w.id == v.id then
               { v with
                   config := { config_name := v.config.config_name,
                               parameters := parameters },
                   revision := v.revision + 1,
                   modified_by := uid }
             else w),
           variant_revisions := s.variant_revisions ++
             [{ id := s.next_id, variant := v.id, revision := v.revision + 1,
                config := { config_name := v.config.config_name,
                            parameters := parameters },
                base := v.base, modified_by := uid }],
           next_id := s.next_id + 1 }) := by
  simp [save_config, hb, hv, hempty, update_variant_parameters, saveVariant]

/-- A variant like `exVariant` but with the empty parameter mapping. -/
def exVariantEmpty : AppVariantDB :=
  { id := 2, app := 0, base := 1, variant_name := "app.prod",
    base_name := "app", config_name := "prod", revision := 0,
    config := { config_name := "prod", parameters := [] }, modified_by := 7 }

/-- `exState` with the variant's parameters empty (a fresh base variant). -/
def exStateEmpty : DBState :=
  { variants := [exVariantEmpty],
    variant_revisions :=
      [{ id := 3, variant := 2, revision := 0,
         config := { config_name := "prod", parameters := [] },
         base := 1, modified_by := 7 }],
    environments := [exEnvironment], environment_revisions := [],
    bases := [exBase], deployments := [exDeployment], next_id := 6 }

/-- Witness for C6 at a concrete input: the variant's parameters are `{}`,
so the overwrite=false save updates in place (revision 0 → 1). -/
theorem save_config_empty_params_updates_in_place_witness :
    save_config exStateEmpty 1 "prod" [("temperature", "0.9")] false 8 =
      (.ok (),
       { exStateEmpty with
           variants := exStateEmpty.variants.map (fun w =>
             if w.id == exVariantEmpty.id then
               { exVariantEmpty with
                   config := { config_name := exVariantEmpty.config.config_name,
                               parameters := [("temperature", "0.9")] },
                   revision := exVariantEmpty.revision + 1,
                   modified_by := 8 }
             else w),
           variant_revisions := exStateEmpty.variant_revisions ++
             [{ id := exStateEmpty.next_id, variant := exVariantEmpty.id,
                revision := exVariantEmpty.revision + 1,
                config := { config_name := exVariantEmpty.config.config_name,
                            parameters := [("temperature", "0.9")] },
                base := exVariantEmpty.base, modified_by := 8 }],
           next_id := exStateEmpty.next_id + 1 }) :=
  save_config_empty_params_updates_in_place exStateEmpty 1 "prod"
    [("temperature", "0.9")] 8 exBase exVariantEmpty (by decide) (by decide)
    (by decide)

/-! ## C7: save_config creating a derived variant -/

/-- C7 (amended): for every `save_config` call where no variant under the
base matches the requested config name — provided the base already has at
least one variant (the base variant created at app-creation time) — a new
variant is created with `variant_name = base_name ++ "." ++ config_name`
and `current_revision_number = 1`, and exactly one initial variant
revision, at revision number 1, holding the supplied parameters; the new
variant has no revision 0 (last conjunct: filtering the revision log by
the new variant's id yields exactly the one revision-1 record). -/
theorem save_config_creates_derived_variant
    (s : DBState) (base_id : Nat) (config_name : String)
    (parameters : Params) (overwrite : Bool) (uid : Nat)
    (base_db : VariantBaseDB) (prev : AppVariantDB)
    (hb : s.bases.find? (fun b => b.id == base_id) = some base_db)
    (hnone : (list_variants_for_base s base_id).find?
        (fun w => w.config_name == config_name) = none)
    (hprev : (s.variants.filter (fun v => v.base == base_id)).head? = some prev)
    (hfresh : ∀ rr ∈ s.variant_revisions, rr.variant < s.next_id) :
    save_config s base_id config_name parameters overwrite uid =
      (.ok (),
       { s with
           variants := s.variants ++
             [{ id := s.next_id, app := prev.app, base := base_id,
                variant_name := base_db.base_name ++ "." ++ config_name,
                base_name := base_db.base_name, config_name := config_name,
                revision := 1,
                config := { config_name := config_name,
                            parameters := parameters },
                modified_by := uid }],
           variant_revisions := s.variant_revisions ++
             [{ id := s.next_id + 1, variant := s.next_id, revision := 1,
                config := { config_name := config_name,
                            parameters := parameters },
                base := base_id, modified_by := uid }],
           next_id := s.next_id + 2 }) ∧
    (s.variant_revisions ++
        [({ id := s.next_id + 1, variant := s.next_id, revision := 1,
            config := { config_name := config_name,
                        parameters := parameters },
            base := base_id, modified_by := uid } : AppVariantRevisionsDB)]).filter
        (fun rr => rr.variant == s.next_id) =
      [({ id := s.next_id + 1, variant := s.next_id, revision := 1,
          config := { config_name := config_name, parameters := parameters },
          base := base_id, modified_by := uid } : AppVariantRevisionsDB)] := by
  have hbid : base_db.id = base_id := by
    have := List.find?_some hb
    simpa using this
  have hany : (list_variants_for_base s base_id).any
      (fun av => av.config_name == config_name) = false :=
    any_eq_false_of_find?_eq_none _ _ hnone
  constructor
  · simp [save_config, hb, hnone, add_variant_from_base_and_config, hbid,
      hprev, hany]
  · rw [List.filter_append]
    have h1 : s.variant_revisions.filter (fun rr => rr.variant == s.next_id)
        = [] := by
      rw [List.filter_eq_nil_iff]
      intro rr hrr
      have hlt := hfresh rr hrr
      simp [Nat.ne_of_lt hlt]
    rw [h1]
    simp

/-- Counterexample to C7 as stated: on a base with no variants at all (so
certainly none matching the requested config name), `save_config` does not
create a variant — it fails with HTTP 500 "Previous app variant not found"
and leaves the store unchanged. -/
theorem save_config_no_base_variant_fails :
    save_config exStateNoVariants 1 "prod" [("temperature", "0.5")] false 8 =
      (.error (.http 500 "Previous app variant not found"),
       exStateNoVariants) := rfl

/-- Witness for (amended) C7 at a concrete input: saving config name `dev`
under `exBase` (which has the variant `app.prod` but none named `dev`)
creates variant `app.dev` at revision 1 with exactly one revision record,
numbered 1. -/
theorem save_config_creates_derived_variant_witness :
    save_config exState 1 "dev" [("temperature", "0.7")] false 8 =
      (.ok (),
       { exState with
           variants := exState.variants ++
             [{ id := exState.next_id, app := exVariant.app, base := 1,
                variant_name := exBase.base_name ++ "." ++ "dev",
                base_name := exBase.base_name, config_name := "dev",
                revision := 1,
                config := { config_name := "dev",
                            parameters := [("temperature", "0.7")] },
                modified_by := 8 }],
           variant_revisions := exState.variant_revisions ++
             [{ id := exState.next_id + 1, variant := exState.next_id,
                revision := 1,
                config := { config_name := "dev",
                            parameters := [("temperature", "0.7")] },
                base := 1, modified_by := 8 }],
           next_id := exState.next_id + 2 }) ∧
    (exState.variant_revisions ++
        [({ id := exState.next_id + 1, variant := exState.next_id,
            revision := 1,
            config := { config_name := "dev",
                        parameters := [("temperature", "0.7")] },
            base := 1, modified_by := 8 } : AppVariantRevisionsDB)]).filter
        (fun rr => rr.variant == exState.next_id) =
      [({ id := exState.next_id + 1, variant := exState.next_id, revision := 1,
          config := { config_name := "dev",
                      parameters := [("temperature", "0.7")] },
          base := 1, modified_by := 8 } : AppVariantRevisionsDB)] :=
  save_config_creates_derived_variant exState 1 "dev"
    [("temperature", "0.7")] false 8 exBase exVariant (by decide) (by decide)
    (by decide) (by decide)

/-! ## C8: get_config by a nonexistent environment name -/

/-- C8: the code contradicts the specified 400 behaviour.  When no
environment of the base's app has the requested name, the Python loop in
`get_config` never assigns `found_variant_revision`; the subsequent read
raises `UnboundLocalError`, which the generic handler surfaces as HTTP
500 — not the specified 400 not-found.  Evaluated here at a concrete
input: `exState` has only the environment `production`, and a request for
`staging` yields status 500. -/
theorem get_config_unknown_environment_gives_500 :
    get_config exState 1 none (some "staging") =
      .error (.http 500 "UnboundLocalError: found_variant_revision referenced before assignment") := rfl

/-! ## C9: evaluator dispatch -/

/-- Counterexample to C9 as stated: `json` is not one of the seven scoring
functions, yet `evaluate "json"` does not fail with the not-found error —
`globals().get("json")` resolves the imported `json` module, which is then
called and fails, surfacing as a `RuntimeError`.  The dispatcher is a
reflection-based symbol lookup, not an explicit table. -/
theorem evaluate_json_not_notfound :
    ("json" ∉ evaluatorFunctionNames) ∧
    evaluate "json" = .runtimeError "json" ∧
    (evaluate "json").isNotFound = false := by
  refine ⟨by decide, by decide, by decide⟩

/-- C9 (amended): the dispatcher resolves `evaluator_key` through the
module's global namespace.  A key naming one of the seven scoring
functions dispatches to it; a key bound at module level to a truthy
non-scorer value (an import, the logger, an interpreter-provided
attribute such as `__name__`, `evaluate` itself) is resolved and called,
failing with `RuntimeError` rather than not-found; a key that `.get`
leaves at `None` — unbound, or bound to the falsy `__doc__` — fails with
the not-found `ValueError`. -/
theorem evaluate_resolves_via_module_globals (key : String) :
    (key ∈ evaluatorFunctionNames → evaluate key = .dispatched key) ∧
    (key ∈ moduleGlobalNames → key ∉ falsyModuleGlobalNames →
      key ∉ evaluatorFunctionNames → evaluate key = .runtimeError key) ∧
    (key ∉ moduleGlobalNames ∨ key ∈ falsyModuleGlobalNames →
      evaluate key = .valueError key) := by
  refine ⟨?_, ?_, ?_⟩
  · intro h
    have hg : key ∈ moduleGlobalNames :=
      List.mem_append.mpr (Or.inl (List.mem_append.mpr (Or.inr h)))
    have hnf : key ∉ falsyModuleGlobalNames := by
      intro hf
      rw [falsyModuleGlobalNames, List.mem_singleton] at hf
      subst hf
      exact absurd h (by decide)
    simp [evaluate, hg, hnf, h]
  · intro hg hnf hs
    simp [evaluate, hg, hnf, hs]
  · intro h
    have hcond : ¬(key ∈ moduleGlobalNames ∧ key ∉ falsyModuleGlobalNames) := by
      rcases h with hg | hf
      · exact fun hc => hg hc.1
      · exact fun hc => hc.2 hf
    simp [evaluate, hcond]

/-- Witness for (amended) C9 at concrete keys: a scoring-function key
dispatches, a truthy non-scorer module global (`json`) gives
`RuntimeError`, an unknown key gives the not-found `ValueError`, and the
falsy module global `__doc__` also gives the not-found `ValueError`. -/
theorem evaluate_resolves_via_module_globals_witness :
    evaluate "auto_exact_match" = .dispatched "auto_exact_match" ∧
    evaluate "json" = .runtimeError "json" ∧
    evaluate "no_such_evaluator" = .valueError "no_such_evaluator" ∧
    evaluate "__doc__" = .valueError "__doc__" :=
  ⟨(evaluate_resolves_via_module_globals "auto_exact_match").1 (by decide),
   (evaluate_resolves_via_module_globals "json").2.1 (by decide) (by decide)
     (by decide),
   (evaluate_resolves_via_module_globals "no_such_evaluator").2.2
     (Or.inl (by decide)),
   (evaluate_resolves_via_module_globals "__doc__").2.2
     (Or.inr (by decide))⟩

/-! ## C10: precedence of environment_name over config_name -/

/-- Counterexample to C10 as stated: supplying both parameters with
`environment_name` equal to the empty string (a supplied but falsy value
in Python) does NOT take the environment branch: the `config_name` lookup
runs and returns the variant's live config, while the same request without
`config_name` falls through to the unassigned-`config` read (HTTP 500).
So the `config_name` argument is not ignored for every request that
supplies both. -/
theorem get_config_both_empty_env_not_ignored :
    get_config exState 1 (some "prod") (some "") = .ok cfgProd ∧
    get_config exState 1 none (some "") =
      .error (.http 500 "UnboundLocalError: config referenced before assignment") :=
  ⟨rfl, rfl⟩

/-- C10 (amended): for every `get_config` request that supplies both
`config_name` and a non-empty (truthy) `environment_name`, the
environment branch takes precedence and the `config_name` argument is
ignored entirely: the result is the same as for the request without
`config_name`, and no variant-by-name lookup is performed. -/
theorem get_config_env_precedence (s : DBState) (base_id : Nat)
    (cname ename : String) (hne : ename ≠ "") :
    get_config s base_id (some cname) (some ename) =
      get_config s base_id none (some ename) := by
  unfold get_config
  cases h : s.bases.find? (fun b => b.id == base_id) with
  | none => rfl
  | some b =>
    have ht : pyTruthy (some ename) = true := by simp [pyTruthy, hne]
    simp [ht]

/-- Witness for (amended) C10 at a concrete input. -/
theorem get_config_env_precedence_witness :
    get_config exState 1 (some "prod") (some "production") =
      get_config exState 1 none (some "production") :=
  get_config_env_precedence exState 1 "prod" "production" (by decide)

/-! ## C2: deploy increments the counter and appends one audit record -/

/-- C2: for every environment and deployable variant, a successful deploy
increments the environment's revision counter by exactly 1, sets the
environment's live pointer to the variant's current revision (the revision
record `r` satisfies `r.variant = v.id` and `r.revision = v.revision`),
and appends exactly one environment revision at the new counter value
whose `deployed_app_variant_revision` equals the environment's new live
pointer — both are `some r.id` in the resulting state. -/
theorem deploy_increments_counter_and_appends_revision
    (s : DBState) (ename : String) (vid uid : Nat)
    (v : AppVariantDB) (r : AppVariantRevisionsDB)
    (env : AppEnvironmentDB) (dep : DeploymentDB)
    (hv : findVariant s vid = some v)
    (hr : s.variant_revisions.find?
        (fun rr => rr.variant == vid && rr.revision == v.revision) = some r)
    (henv : s.environments.find?
        (fun e => e.app == v.app && e.name == ename) = some env)
    (hd : s.deployments.find? (fun d => d.app == v.app) = some dep) :
    deploy_to_environment s ename vid uid =
      (.ok (),
       { s with
           environments := s.environments.map (fun e =>
             if e.id == env.id then
               { env with
                   revision := env.revision + 1,
                   deployed_app_variant := some v.id,
                   deployed_app_variant_revision := some r.id,
                   deployment := some dep.id }
             else e),
           environment_revisions := s.environment_revisions ++
             [{ id := s.next_id, environment := env.id,
                revision := env.revision + 1, modified_by := uid,
                deployed_app_variant_revision := some r.id,
                deployment := some dep.id }],
           next_id := s.next_id + 1 }) ∧
    r.variant = vid ∧ r.revision = v.revision := by
  refine ⟨?_, ?_⟩
  · simp [deploy_to_environment, hv, hr, henv, hd]
  · have hpr := List.find?_some hr
    simp only [Bool.and_eq_true, beq_iff_eq] at hpr
    exact hpr

/-- Witness for C2 at a concrete input: deploying `exVariant` (revision 1)
to `production` in `exState` bumps the counter 0 → 1, points the
environment at revision record 3, and appends one environment revision at
counter value 1 pointing at the same record. -/
theorem deploy_increments_counter_and_appends_revision_witness :
    deploy_to_environment exState "production" 2 8 =
      (.ok (),
       { exState with
           environments := exState.environments.map (fun e =>
             if e.id == exEnvironment.id then
               { exEnvironment with
                   revision := exEnvironment.revision + 1,
                   deployed_app_variant := some exVariant.id,
                   deployed_app_variant_revision := some exRevision.id,
                   deployment := some exDeployment.id }
             else e),
           environment_revisions := exState.environment_revisions ++
             [{ id := exState.next_id, environment := exEnvironment.id,
                revision := exEnvironment.revision + 1, modified_by := 8,
                deployed_app_variant_revision := some exRevision.id,
                deployment := some exDeployment.id }],
           next_id := exState.next_id + 1 }) ∧
    exRevision.variant = 2 ∧ exRevision.revision = exVariant.revision :=
  deploy_increments_counter_and_appends_revision exState "production" 2 8
    exVariant exRevision exEnvironment exDeployment (by decide) (by decide)
    (by decide) (by decide)

/-! ## C3: revert mutates only the live pointer -/

/-- `exEnvironment` after the deploy recorded by `exEnvRevision`. -/
def exEnvDeployed : AppEnvironmentDB :=
  { id := 4, app := 0, name := "production", revision := 1,
    deployed_app_variant := some 2, deployed_app_variant_revision := some 3,
    deployment := some 5 }

/-- The audit record of that deploy. -/
def exEnvRevision : AppEnvironmentRevisionDB :=
  { id := 6, environment := 4, revision := 1, modified_by := 8,
    deployed_app_variant_revision := some 3, deployment := some 5 }

/-- `exState` after one deploy of `exVariant` to `production`. -/
def exStateDeployed : DBState :=
  { variants := [exVariant], variant_revisions := [exRevision],
    environments := [exEnvDeployed], environment_revisions := [exEnvRevision],
    bases := [exBase], deployments := [exDeployment], next_id := 7 }

/-- C3: for every successful revert to an environment revision `erev` that
has a deployed variant revision, the owning environment's live pointer is
set to `erev.deployed_app_variant_revision` exactly (second conjunct),
while the resulting state differs from `s` only in that one environment
record's `deployed_app_variant_revision` field: the revision counter is
not incremented, no environment revision is appended, and all the other
fields of the environment and of the store are unchanged (all visible in
the explicit result state, which updates nothing else). -/
theorem revert_sets_pointer_only
    (s : DBState) (erev_id : Nat)
    (erev : AppEnvironmentRevisionDB) (avr_id : Nat)
    (avr : AppVariantRevisionsDB) (env : AppEnvironmentDB)
    (her : s.environment_revisions.find?
        (fun er => er.id == erev_id) = some erev)
    (hdep : erev.deployed_app_variant_revision = some avr_id)
    (havr : s.variant_revisions.find? (fun rr => rr.id == avr_id) = some avr)
    (henv : s.environments.find?
        (fun e => e.id == erev.environment) = some env) :
    revert_deployment_revision s erev_id =
      (.ok (),
       { s with
           environments := s.environments.map (fun e =>
             if e.id == env.id then
               { env with deployed_app_variant_revision := some avr.id }
             else e) }) ∧
    some avr.id = erev.deployed_app_variant_revision := by
  have hid : avr.id = avr_id := by
    have := List.find?_some havr
    simpa using this
  refine ⟨?_, ?_⟩
  · simp [revert_deployment_revision, her, hdep, henv,
      update_app_environment_deployed_variant_revision, havr]
  · rw [hid, hdep]

/-- Witness for C3 at a concrete input: reverting to `exEnvRevision` in
`exStateDeployed` rewrites only the environment's live pointer. -/
theorem revert_sets_pointer_only_witness :
    revert_deployment_revision exStateDeployed 6 =
      (.ok (),
       { exStateDeployed with
           environments := exStateDeployed.environments.map (fun e =>
             if e.id == exEnvDeployed.id then
               { exEnvDeployed with
                   deployed_app_variant_revision := some exRevision.id }
             else e) }) ∧
    some exRevision.id = exEnvRevision.deployed_app_variant_revision :=
  revert_sets_pointer_only exStateDeployed 6 exEnvRevision 3 exRevision
    exEnvDeployed (by decide) (by decide) (by decide) (by decide)

/-! ## C1: deployed snapshots are stable across later edits -/

/-- C1: once written, a revision's config snapshot never changes.  After
deploying a variant's current revision `r` (the record with
`revision = v.revision`) to the environment named `ename`, and then saving
new parameters to that variant (producing revision `v.revision + 1`),
`get_config` by `environment_name` still returns `r`'s snapshot as it was
at deploy time — and therefore not the new parameters whenever they differ
from that snapshot.  The id-uniqueness hypotheses reflect the store's
globally unique document identifiers. -/
theorem deployed_config_stable_across_edit
    (s : DBState) (base_id vid uid uid2 : Nat) (ename : String)
    (newparams : Params)
    (b : VariantBaseDB) (v : AppVariantDB) (r : AppVariantRevisionsDB)
    (env : AppEnvironmentDB) (dep : DeploymentDB)
    (hb : s.bases.find? (fun bb => bb.id == base_id) = some b)
    (happ : b.app = v.app)
    (hv : findVariant s vid = some v)
    (hr : s.variant_revisions.find?
        (fun rr => rr.variant == vid && rr.revision == v.revision) = some r)
    (hrb : r.base = base_id)
    (henv : s.environments.find?
        (fun e => e.app == v.app && e.name == ename) = some env)
    (hd : s.deployments.find? (fun d => d.app == v.app) = some dep)
    (hne : ename ≠ "")
    (henvNodup : (s.environments.map (fun e => e.id)).Nodup)
    (hvrevNodup : (s.variant_revisions.map (fun rr => rr.id)).Nodup) :
    get_config
        (update_variant_parameters (deploy_to_environment s ename vid uid).2
          v newparams uid2)
        base_id none (some ename) = .ok r.config ∧
    (∀ cn : String, r.config.parameters ≠ newparams →
      get_config
          (update_variant_parameters (deploy_to_environment s ename vid uid).2
            v newparams uid2)
          base_id none (some ename) ≠
        .ok { config_name := cn, parameters := newparams }) := by
  have henvMem : env ∈ s.environments := List.mem_of_find?_eq_some henv
  have hrMem : r ∈ s.variant_revisions := List.mem_of_find?_eq_some hr
  have hdeploy : (deploy_to_environment s ename vid uid).2 =
      { s with
          environments := s.environments.map (fun e =>
            if e.id == env.id then
              { env with
                  revision := env.revision + 1,
                  deployed_app_variant := some v.id,
                  deployed_app_variant_revision := some r.id,
                  deployment := some dep.id }
            else e),
          environment_revisions := s.environment_revisions ++
            [{ id := s.next_id, environment := env.id,
               revision := env.revision + 1, modified_by := uid,
               deployed_app_variant_revision := some r.id,
               deployment := some dep.id }],
          next_id := s.next_id + 1 } := by
    simp [deploy_to_environment, hv, hr, henv, hd]
  have ht : pyTruthy (some ename) = true := by simp [pyTruthy, hne]
  have hpw : ∀ x ∈ s.environments,
      ((fun e => e.app == v.app && e.name == ename)
        ((fun e =>
          if e.id == env.id then
            { env with
                revision := env.revision + 1,
                deployed_app_variant := some v.id,
                deployed_app_variant_revision := some r.id,
                deployment := some dep.id }
          else e) x)) =
      ((fun e => e.app == v.app && e.name == ename) x) := by
    intro x hx
    by_cases hxid : (x.id == env.id) = true
    · have hxe : x = env :=
        eq_of_idf_eq_of_nodup (fun e => e.id) s.environments henvNodup
          x hx env henvMem (by simpa using hxid)
      subst hxe
      simp
    · simp only [Bool.not_eq_true] at hxid
      simp [hxid]
  have hfr : s.variant_revisions.find? (fun y => y.id == r.id) = some r :=
    find?_beq_id_of_nodup (fun rr => rr.id) s.variant_revisions hvrevNodup
      r hrMem
  have hmain : get_config
      (update_variant_parameters (deploy_to_environment s ename vid uid).2
        v newparams uid2)
      base_id none (some ename) = .ok r.config := by
    rw [hdeploy]
    simp only [update_variant_parameters, saveVariant]
    simp only [get_config]
    rw [hb]
    simp only [ht, if_true]
    simp only [getConfigByEnv, Option.getD]
    rw [find?_filter_eq, happ]
    rw [find?_map_pointwise _ _ s.environments hpw, henv]
    simp only [Option.map_some', beq_self_eq_true, if_true]
    rw [find?_append_left _ _ _ r hfr]
    simp [hrb]
  refine ⟨hmain, ?_⟩
  intro cn hneq hEq
  rw [hmain] at hEq
  injection hEq with hcfg
  exact hneq (by rw [hcfg])

/-- Witness for C1 at a concrete input: deploy `exVariant` (revision 1,
temperature 0.5) to `production`, then save temperature 0.9 (revision 2);
reading by environment still returns revision 1's snapshot. -/
theorem deployed_config_stable_across_edit_witness :
    get_config
        (update_variant_parameters
          (deploy_to_environment exState "production" 2 8).2
          exVariant [("temperature", "0.9")] 9)
        1 none (some "production") = .ok exRevision.config :=
  (deployed_config_stable_across_edit exState 1 2 8 9 "production"
    [("temperature", "0.9")] exBase exVariant exRevision exEnvironment
    exDeployment (by decide) (by decide) (by decide) (by decide) (by decide)
    (by decide) (by decide) (by decide) (by decide) (by decide)).1
